import Mathlib

/-!
Shallow embedding of `src/useFormPersist.ts` (react-hook-form-persist).

The hook mirrors form values into a synchronous key-value store and
restores them on initialization.  We embed the three effectful pieces of
the source as pure state-transition functions over an explicit state
record, emitting a trace of the externally observable calls
(`getItem` / `setItem` / `removeItem` on the Storage adapter, `setValue`
on the form, and the `onTimeout` / `onDataRestored` callbacks):

  * the restore effect        (useFormPersist.ts lines 68-102),
  * `saveToStorage` plus the skip-guard around it (lines 117-170),
  * `clearStorage`            (lines 41-44).

JavaScript values that can appear in a form snapshot are modelled by the
inductive `JVal`, which mirrors the JSON value grammar with objects as
insertion-ordered association lists (JS objects preserve insertion order
for non-integer string keys, and `JSON.stringify` prints fields in that
order).  On this representation `JSON.stringify` is injective and
`JSON.parse` is its inverse, so

  * the per-key comparison `JSON.stringify(a) !== JSON.stringify(b)`
    of `valuesHaveChanged` is modelled by decidable inequality of `JVal`;
  * a stored raw string is modelled by `Blob`: a parseable JSON object is
    carried as its field list (`Blob.obj`), the empty string (falsy in
    the `if (storageRawValues)` test) as `Blob.emptyStr`, and any
    non-empty string on which `JSON.parse` throws as `Blob.malformed`.

Numbers are modelled as `Int` (timestamps and the values exercised here
are integral; no claim depends on float-specific behaviour).

Exceptions (a throwing `JSON.parse` or a throwing `Storage.setItem`) are
modelled by a `threw` flag on the step result: when it is set, the
returned state reflects exactly the mutations performed before the throw,
since the source has no try/catch/finally around either call site.
-/

namespace FormPersist

/-- JSON-representable JavaScript value; objects are insertion-ordered
association lists, matching JS enumeration and `JSON.stringify` order. -/
inductive JVal where
  | jnull
  | jbool (b : Bool)
  | jnum (n : Int)
  | jstr (s : String)
  | jarr (elems : List JVal)
  | jobj (fields : List (String × JVal))

mutual

/-- Decidable equality on `JVal` (the automatic derivation does not
handle the nested lists). -/
def JVal.decEq : (a b : JVal) → Decidable (a = b)
  | JVal.jnull, JVal.jnull => isTrue rfl
  | JVal.jnull, JVal.jbool _ => isFalse (fun h => JVal.noConfusion h)
  | JVal.jnull, JVal.jnum _ => isFalse (fun h => JVal.noConfusion h)
  | JVal.jnull, JVal.jstr _ => isFalse (fun h => JVal.noConfusion h)
  | JVal.jnull, JVal.jarr _ => isFalse (fun h => JVal.noConfusion h)
  | JVal.jnull, JVal.jobj _ => isFalse (fun h => JVal.noConfusion h)
  | JVal.jbool _, JVal.jnull => isFalse (fun h => JVal.noConfusion h)
  | JVal.jbool a, JVal.jbool b =>
      if h : a = b then isTrue (by rw [h])
      else isFalse (fun he => h (by injection he))
  | JVal.jbool _, JVal.jnum _ => isFalse (fun h => JVal.noConfusion h)
  | JVal.jbool _, JVal.jstr _ => isFalse (fun h => JVal.noConfusion h)
  | JVal.jbool _, JVal.jarr _ => isFalse (fun h => JVal.noConfusion h)
  | JVal.jbool _, JVal.jobj _ => isFalse (fun h => JVal.noConfusion h)
  | JVal.jnum _, JVal.jnull => isFalse (fun h => JVal.noConfusion h)
  | JVal.jnum _, JVal.jbool _ => isFalse (fun h => JVal.noConfusion h)
  | JVal.jnum a, JVal.jnum b =>
      if h : a = b then isTrue (by rw [h])
      else isFalse (fun he => h (by injection he))
  | JVal.jnum _, JVal.jstr _ => isFalse (fun h => JVal.noConfusion h)
  | JVal.jnum _, JVal.jarr _ => isFalse (fun h => JVal.noConfusion h)
  | JVal.jnum _, JVal.jobj _ => isFalse (fun h => JVal.noConfusion h)
  | JVal.jstr _, JVal.jnull => isFalse (fun h => JVal.noConfusion h)
  | JVal.jstr _, JVal.jbool _ => isFalse (fun h => JVal.noConfusion h)
  | JVal.jstr _, JVal.jnum _ => isFalse (fun h => JVal.noConfusion h)
  | JVal.jstr a, JVal.jstr b =>
      if h : a = b then isTrue (by rw [h])
      else isFalse (fun he => h (by injection he))
  | JVal.jstr _, JVal.jarr _ => isFalse (fun h => JVal.noConfusion h)
  | JVal.jstr _, JVal.jobj _ => isFalse (fun h => JVal.noConfusion h)
  | JVal.jarr _, JVal.jnull => isFalse (fun h => JVal.noConfusion h)
  | JVal.jarr _, JVal.jbool _ => isFalse (fun h => JVal.noConfusion h)
  | JVal.jarr _, JVal.jnum _ => isFalse (fun h => JVal.noConfusion h)
  | JVal.jarr _, JVal.jstr _ => isFalse (fun h => JVal.noConfusion h)
  | JVal.jarr xs, JVal.jarr ys =>
      match JVal.decEqList xs ys with
      | isTrue h => isTrue (by rw [h])
      | isFalse h => isFalse (fun he => h (by injection he))
  | JVal.jarr _, JVal.jobj _ => isFalse (fun h => JVal.noConfusion h)
  | JVal.jobj _, JVal.jnull => isFalse (fun h => JVal.noConfusion h)
  | JVal.jobj _, JVal.jbool _ => isFalse (fun h => JVal.noConfusion h)
  | JVal.jobj _, JVal.jnum _ => isFalse (fun h => JVal.noConfusion h)
  | JVal.jobj _, JVal.jstr _ => isFalse (fun h => JVal.noConfusion h)
  | JVal.jobj _, JVal.jarr _ => isFalse (fun h => JVal.noConfusion h)
  | JVal.jobj fs, JVal.jobj gs =>
      match JVal.decEqFields fs gs with
      | isTrue h => isTrue (by rw [h])
      | isFalse h => isFalse (fun he => h (by injection he))

/-- Decidable equality on lists of `JVal`. -/
def JVal.decEqList : (xs ys : List JVal) → Decidable (xs = ys)
  | [], [] => isTrue rfl
  | [], _ :: _ => isFalse (fun h => List.noConfusion h)
  | _ :: _, [] => isFalse (fun h => List.noConfusion h)
  | x :: xs, y :: ys =>
      match JVal.decEq x y, JVal.decEqList xs ys with
      | isTrue h1, isTrue h2 => isTrue (by rw [h1, h2])
      | isFalse h1, _ => isFalse (fun h => h1 (by injection h))
      | _, isFalse h2 => isFalse (fun h => h2 (by injection h))

/-- Decidable equality on field lists. -/
def JVal.decEqFields :
    (fs gs : List (String × JVal)) → Decidable (fs = gs)
  | [], [] => isTrue rfl
  | [], _ :: _ => isFalse (fun h => List.noConfusion h)
  | _ :: _, [] => isFalse (fun h => List.noConfusion h)
  | (k, v) :: fs, (l, w) :: gs =>
      if hk : k = l then
        match JVal.decEq v w, JVal.decEqFields fs gs with
        | isTrue h1, isTrue h2 => isTrue (by rw [hk, h1, h2])
        | isFalse h1, _ =>
            isFalse (fun h => by
              injection h with h3 h4
              injection h3 with h5 h6
              exact h1 h6)
        | _, isFalse h2 => isFalse (fun h => h2 (by injection h))
      else
        isFalse (fun h => by
          injection h with h3 h4
          injection h3 with h5 h6
          exact hk h5)

end

instance : DecidableEq JVal := JVal.decEq

/-- Snapshot: mapping from field name to value, as an ordered list. -/
abbrev Snapshot := List (String × JVal)

/-- Options passed to `setValue` on restore
(`shouldValidate` / `shouldDirty` / `shouldTouch`). -/
structure SetFlags where
  shouldValidate : Bool
  shouldDirty : Bool
  shouldTouch : Bool
deriving DecidableEq

/-- Externally observable calls made by the hook.  `setItem` carries the
object whose `JSON.stringify` is written (the encoding is injective on
`JVal`, so carrying the object is equivalent to carrying the string). -/
inductive Event where
  | getItem (key : String)
  | setItem (key : String) (record : Snapshot)
  | removeItem (key : String)
  | setValue (field : String) (value : JVal) (flags : SetFlags)
  | dataRestored (values : Snapshot)
  | timeoutFired
deriving DecidableEq

/-- Raw string stored under the hook's storage key, at the granularity
the source observes it: `obj` is a parseable JSON object (carried as its
parse), `emptyStr` is `""` (falsy, never parsed), `malformed` is any
non-empty string on which `JSON.parse` throws. -/
inductive Blob where
  | obj (fields : Snapshot)
  | emptyStr
  | malformed
deriving DecidableEq

/-- Configuration of one `useFormPersist` binding, after defaulting
(`exclude = []`, flags false, `debounceDelay = 0`).  `timeout : Option Int`
models the optional `timeout` number (`none` = absent/undefined).
`hasOnTimeout` / `hasOnDataRestored` record whether the optional
callbacks were supplied. -/
structure Config where
  name : String
  exclude : List String := []
  validate : Bool := false
  dirty : Bool := false
  touch : Bool := false
  timeout : Option Int := none
  debounceDelay : Int := 0
  hasOnTimeout : Bool := false
  hasOnDataRestored : Bool := false
deriving DecidableEq

/-- Per-binding session state: the storage cell under this binding's key
(`none` = no record), and the four refs `lastValuesRef`,
`initializedRef`, `isRestoringRef`, `isSavingRef`. -/
structure HookState where
  storage : Option Blob
  lastValues : Snapshot
  initialized : Bool
  restoring : Bool
  saving : Bool
deriving DecidableEq

/-- State of a binding that has just been created over the given storage
cell: all refs at their initial values (lines 25-29 of the source). -/
def freshState (b : Option Blob) : HookState :=
  { storage := b, lastValues := [], initialized := false,
    restoring := false, saving := false }

/-- Result of one synchronous effect: final state, emitted calls in
order, and whether an exception escaped. -/
structure StepResult where
  state : HookState
  events : List Event
  threw : Bool
deriving DecidableEq

/-- Storage key, per `getStorageKey` (line 32):
`react-hook-form-persist:<name>`. -/
def getStorageKey (name : String) : String :=
  "react-hook-form-persist:" ++ name

/-- Model of `clearStorage` (lines 41-44): one `removeItem` at the
storage key; no ref is touched. -/
def clearStorage (cfg : Config) (st : HookState) : HookState × List Event :=
  ({ st with storage := none }, [Event.removeItem (getStorageKey cfg.name)])

/-- Lookup of `obj[key]` in an association-list object (keys of a JS
object are unique, so the first hit is the value). -/
def lookupJ (fields : Snapshot) (key : String) : Option JVal :=
  (fields.find? (fun kv => kv.1 == key)).map Prod.snd

/-- Lexicographic (code-point) strict comparison of character lists,
the order used by the default `Array.prototype.sort()` comparator on the
key arrays.  (`String.le` itself is defined through iterators and does
not kernel-reduce, so the order is spelled out on the character lists.) -/
def strLtb : List Char → List Char → Bool
  | [], [] => false
  | [], _ :: _ => true
  | _ :: _, [] => false
  | c :: cs, d :: ds =>
      if c.val < d.val then true
      else if d.val < c.val then false
      else strLtb cs ds

/-- Non-strict string comparison derived from `strLtb`. -/
def strLeb (s t : String) : Bool := !(strLtb t.data s.data)

/-- Insertion of one string into an ascending list, for `Array.sort`. -/
def insertSorted (s : String) : List String → List String
  | [] => [s]
  | t :: ts => if strLeb s t then s :: t :: ts else t :: insertSorted s ts

/-- Sort of a list of keys, modelling `Object.keys(x).sort()`. -/
def sortStrings : List String → List String
  | [] => []
  | s :: ss => insertSorted s (sortStrings ss)

/-- Model of `valuesHaveChanged` (lines 46-66): compare the sorted key
lists; if they differ, report a change; otherwise report a change iff
some key's value has a different `JSON.stringify` (decidable inequality
on `JVal`, see the header comment). -/
def valuesHaveChanged (newValues lastValues : Snapshot) : Bool :=
  let newKeys := sortStrings (newValues.map Prod.fst)
  let lastKeys := sortStrings (lastValues.map Prod.fst)
  if newKeys.length != lastKeys.length
      || !((newKeys.zip lastKeys).all (fun p => p.1 == p.2)) then
    true
  else
    newKeys.any (fun k => lookupJ newValues k != lookupJ lastValues k)

/-- Candidate values built at the top of `saveToStorage` (lines 123-133):
with a non-empty exclusion list, keep only non-excluded entries;
otherwise the shallow copy `{...watchedValues}`. -/
def filteredValues (exclude : List String) (watched : Snapshot) : Snapshot :=
  if exclude.length > 0 then
    watched.filter (fun kv => !(exclude.contains kv.1))
  else
    watched

/-- JS property assignment `obj[key] = v`: overwrite in place when the
key exists, else append at the end. -/
def objSet (fields : Snapshot) (key : String) (v : JVal) : Snapshot :=
  if fields.any (fun kv => kv.1 == key) then
    fields.map (fun kv => if kv.1 == key then (key, v) else kv)
  else
    fields ++ [(key, v)]

/-- Model of `saveToStorage` (lines 118-144).  `now` is `Date.now()`;
`setRaises` says whether the adapter's `setItem` raises on this call.
On a raise the function aborts after the `setItem` call, so
`isSavingRef` stays true and `lastValuesRef` is not updated (there is no
try/finally in the source). -/
def saveToStorage (cfg : Config) (now : Int) (watched : Snapshot)
    (setRaises : Bool) (st : HookState) : StepResult :=
  if st.saving then ⟨st, [], false⟩
  else
    let st1 := { st with saving := true }
    let values := filteredValues cfg.exclude watched
    if values.length != 0 && valuesHaveChanged values st1.lastValues then
      let stamped :=
        if cfg.timeout.isSome then objSet values "_savedAt" (JVal.jnum now)
        else values
      if setRaises then
        ⟨st1, [Event.setItem (getStorageKey cfg.name) stamped], true⟩
      else
        ⟨{ st1 with storage := some (Blob.obj stamped),
                    lastValues := stamped, saving := false },
          [Event.setItem (getStorageKey cfg.name) stamped], false⟩
    else
      ⟨{ st1 with saving := false }, [], false⟩

/-- One save attempt as triggered by a change notification: the guard
`isRestoringRef.current || !initializedRef.current || isSavingRef.current`
is tested (identically on the immediate path, lines 160-170, and inside
the debounce-timer callback, lines 151-159) and, when it does not skip,
`saveToStorage` runs. -/
def attemptSave (cfg : Config) (now : Int) (watched : Snapshot)
    (setRaises : Bool) (st : HookState) : StepResult :=
  if st.restoring || !st.initialized || st.saving then ⟨st, [], false⟩
  else saveToStorage cfg now watched setRaises st

/-- Partial model of JS `Number(x)` coercion as used by
`currTimestamp - _savedAt`: `null` → 0, booleans → 0/1, numbers are
themselves; strings/arrays/objects are modelled as NaN (`none`) — the
source only ever writes a number under `_savedAt`, and no claim
exercises those coercions. -/
def jsToNumber : JVal → Option Int
  | JVal.jnull => some 0
  | JVal.jbool b => some (if b then 1 else 0)
  | JVal.jnum n => some n
  | _ => none

/-- Difference `currTimestamp - _savedAt` (line 78): the destructuring
`const { _savedAt = null, ... }` yields `null` when the key is absent,
and `null` coerces to 0; `none` is NaN. -/
def expiryDiff (now : Int) (fields : Snapshot) : Option Int :=
  match lookupJ fields "_savedAt" with
  | none => some now
  | some v => (jsToNumber v).map (fun n => now - n)

/-- Truthiness of the `timeout` option in `if (timeout && ...)`:
undefined and 0 are falsy, every other number is truthy. -/
def timeoutTruthy : Option Int → Bool
  | none => false
  | some t => t != 0

/-- Expiry guard of the restore effect (line 78):
`timeout && currTimestamp - _savedAt > timeout`; a NaN comparison is
false. -/
def expired (cfg : Config) (now : Int) (fields : Snapshot) : Bool :=
  timeoutTruthy cfg.timeout &&
    (match expiryDiff now fields, cfg.timeout with
     | some d, some t => d > t
     | _, _ => false)

/-- Rest pattern `...values` of `const { _savedAt = null, ...values }`:
all fields but `_savedAt`, in order. -/
def stripSavedAt (fields : Snapshot) : Snapshot :=
  fields.filter (fun kv => kv.1 != "_savedAt")

/-- Field-set calls issued by the restore loop (lines 84-93): one
`setValue` per non-excluded field, in enumeration order, with the three
restore flags. -/
def restoreSetEvents (cfg : Config) (values : Snapshot) : List Event :=
  (values.filter (fun kv => !(cfg.exclude.contains kv.1))).map
    (fun kv => Event.setValue kv.1 kv.2
      ⟨cfg.validate, cfg.dirty, cfg.touch⟩)

/-- Model of the restore effect (lines 68-102).  A malformed record makes
`JSON.parse` throw with nothing catching it, so the effect aborts with
`isRestoringRef` still true and `initializedRef` still false. -/
def restoreEffect (cfg : Config) (now : Int) (st : HookState) : StepResult :=
  if st.initialized || st.restoring then ⟨st, [], false⟩
  else
    let st1 := { st with restoring := true }
    let getEv := Event.getItem (getStorageKey cfg.name)
    match st1.storage with
    | none =>
        ⟨{ st1 with restoring := false, initialized := true }, [getEv], false⟩
    | some Blob.emptyStr =>
        ⟨{ st1 with restoring := false, initialized := true }, [getEv], false⟩
    | some Blob.malformed =>
        ⟨st1, [getEv], true⟩
    | some (Blob.obj fields) =>
        if expired cfg now fields then
          ⟨{ st1 with storage := none, restoring := false, initialized := true },
            [getEv] ++ (if cfg.hasOnTimeout then [Event.timeoutFired] else [])
              ++ [Event.removeItem (getStorageKey cfg.name)],
            false⟩
        else
          let values := stripSavedAt fields
          ⟨{ st1 with lastValues := values, restoring := false,
                      initialized := true },
            [getEv] ++ restoreSetEvents cfg values
              ++ (if cfg.hasOnDataRestored then [Event.dataRestored values]
                  else []),
            false⟩

/-- Predicate picking out storage writes in a trace. -/
def isSetItem : Event → Bool
  | Event.setItem _ _ => true
  | _ => false

/-- Number of `setItem` calls in a trace. -/
def writeCount (evs : List Event) : Nat :=
  (evs.filter isSetItem).length

/-- Predicate picking out field-set calls in a trace. -/
def isSetValue : Event → Bool
  | Event.setValue _ _ _ => true
  | _ => false

/-- Predicate picking out `onDataRestored` invocations in a trace. -/
def isDataRestored : Event → Bool
  | Event.dataRestored _ => true
  | _ => false

/-- Record the write branch of `saveToStorage` actually persists: the
filtered candidate, stamped with `_savedAt` when (and only when) a
`timeout` option is present. -/
def stampedRecord (cfg : Config) (now : Int) (w : Snapshot) : Snapshot :=
  if cfg.timeout.isSome then
    objSet (filteredValues cfg.exclude w) "_savedAt" (JVal.jnum now)
  else
    filteredValues cfg.exclude w

/-- Zipping a list with itself satisfies the pointwise `==` test. -/
theorem zipSelf_all (l : List String) :
    ((l.zip l).all fun p => p.1 == p.2) = true := by
  induction l with
  | nil => rfl
  | cons x xs ih => simp [List.zip, ih]

/-- A snapshot never counts as changed against itself. -/
theorem valuesHaveChanged_self (v : Snapshot) :
    valuesHaveChanged v v = false := by
  unfold valuesHaveChanged
  simp [zipSelf_all]

/-- Unfolding of `saveToStorage` when entered with the `saving` guard
down, in terms of the fired/skip condition. -/
theorem saveToStorage_eq (cfg : Config) (now : Int) (w : Snapshot)
    (raises : Bool) (st : HookState) (hs : st.saving = false) :
    saveToStorage cfg now w raises st =
      if (filteredValues cfg.exclude w).length != 0 &&
          valuesHaveChanged (filteredValues cfg.exclude w) st.lastValues then
        if raises then
          ⟨{ st with saving := true },
            [Event.setItem (getStorageKey cfg.name) (stampedRecord cfg now w)],
            true⟩
        else
          ⟨{ st with storage := some (Blob.obj (stampedRecord cfg now w)),
                     lastValues := stampedRecord cfg now w, saving := false },
            [Event.setItem (getStorageKey cfg.name) (stampedRecord cfg now w)],
            false⟩
      else
        ⟨{ st with saving := false }, [], false⟩ := by
  unfold saveToStorage stampedRecord
  rw [hs]
  simp only [Bool.false_eq_true, if_false]

/-- A save attempt with all three guard flags down runs `saveToStorage`. -/
theorem attemptSave_run (cfg : Config) (now : Int) (w : Snapshot)
    (raises : Bool) (st : HookState) (hi : st.initialized = true)
    (hr : st.restoring = false) (hs : st.saving = false) :
    attemptSave cfg now w raises st = saveToStorage cfg now w raises st := by
  unfold attemptSave
  rw [hi, hr, hs]
  simp

/-- A save attempt is dropped while `isSavingRef` is still set. -/
theorem attemptSave_skip_saving (cfg : Config) (now : Int) (w : Snapshot)
    (raises : Bool) (st : HookState) (hs : st.saving = true) :
    attemptSave cfg now w raises st = ⟨st, [], false⟩ := by
  unfold attemptSave
  rw [hs]
  simp

/-- Lookup steps over a head entry whose key does not match. -/
theorem lookupJ_cons_of_neg (kv : String × JVal) (l : Snapshot) (k : String)
    (h : (kv.1 == k) = false) : lookupJ (kv :: l) k = lookupJ l k := by
  unfold lookupJ
  rw [List.find?_cons_of_neg (p := fun kv => kv.1 == k) l (by simp [h])]

/-- Lookup returns the head entry's value when its key matches. -/
theorem lookupJ_cons_of_pos (kv : String × JVal) (l : Snapshot) (k : String)
    (h : (kv.1 == k) = true) : lookupJ (kv :: l) k = some kv.2 := by
  unfold lookupJ
  rw [List.find?_cons_of_pos (p := fun kv => kv.1 == k) l h]
  rfl

/-- Overwriting branch of property assignment: when the key occurs, the
in-place replacement makes its lookup yield the assigned value. -/
theorem find_objSet_replace (k : String) (v : JVal) :
    ∀ f : Snapshot, (f.any fun kv => kv.1 == k) = true →
      lookupJ (f.map fun kv => if kv.1 == k then (k, v) else kv) k = some v
  | [], h => by simp at h
  | kv :: fs, h => by
      rw [List.map_cons]
      cases hk : (kv.1 == k) with
      | true =>
          rw [if_pos rfl, lookupJ_cons_of_pos _ _ _ (by simp)]
      | false =>
          have h2 : (fs.any fun kv => kv.1 == k) = true := by
            simpa [List.any_cons, hk] using h
          rw [if_neg (by simp), lookupJ_cons_of_neg _ _ _ hk]
          exact find_objSet_replace k v fs h2

/-- Appending branch of property assignment: when the key is absent, the
appended entry is the one its lookup finds. -/
theorem find_objSet_append (k : String) (v : JVal) :
    ∀ f : Snapshot, (f.any fun kv => kv.1 == k) = false →
      lookupJ (f ++ [(k, v)]) k = some v
  | [], _ => by
      rw [List.nil_append, lookupJ_cons_of_pos _ _ _ (by simp)]
  | kv :: fs, h => by
      have h1 : (kv.1 == k) = false := by
        cases hor : (kv.1 == k) with
        | true => simp [List.any_cons, hor] at h
        | false => rfl
      have h2 : (fs.any fun kv => kv.1 == k) = false := by
        simpa [List.any_cons, h1] using h
      rw [List.cons_append, lookupJ_cons_of_neg _ _ _ h1]
      exact find_objSet_append k v fs h2

/-- Unfolding of the restore effect on a not-yet-initialized binding, by
the shape of the stored cell. -/
theorem restoreEffect_eq (cfg : Config) (now : Int) (st : HookState)
    (h1 : st.initialized = false) (h2 : st.restoring = false) :
    restoreEffect cfg now st =
      match st.storage with
      | none =>
          ⟨{ st with restoring := false, initialized := true },
            [Event.getItem (getStorageKey cfg.name)], false⟩
      | some Blob.emptyStr =>
          ⟨{ st with restoring := false, initialized := true },
            [Event.getItem (getStorageKey cfg.name)], false⟩
      | some Blob.malformed =>
          ⟨{ st with restoring := true },
            [Event.getItem (getStorageKey cfg.name)], true⟩
      | some (Blob.obj fields) =>
          if expired cfg now fields then
            ⟨{ st with storage := none, restoring := false,
                       initialized := true },
              [Event.getItem (getStorageKey cfg.name)]
                ++ (if cfg.hasOnTimeout then [Event.timeoutFired] else [])
                ++ [Event.removeItem (getStorageKey cfg.name)], false⟩
          else
            ⟨{ st with lastValues := stripSavedAt fields, restoring := false,
                       initialized := true },
              [Event.getItem (getStorageKey cfg.name)]
                ++ restoreSetEvents cfg (stripSavedAt fields)
                ++ (if cfg.hasOnDataRestored
                    then [Event.dataRestored (stripSavedAt fields)] else []),
              false⟩ := by
  unfold restoreEffect
  rw [h1, h2]
  simp only [Bool.or_self, Bool.false_eq_true, if_false]

/-- Property assignment makes the assigned key's lookup yield the
assigned value. -/
theorem lookupJ_objSet (f : Snapshot) (k : String) (v : JVal) :
    lookupJ (objSet f k v) k = some v := by
  unfold objSet
  cases hany : (f.any fun kv => kv.1 == k) with
  | true =>
      rw [if_pos rfl]
      exact find_objSet_replace k v f hany
  | false =>
      rw [if_neg (by simp)]
      exact find_objSet_append k v f hany

/-- Timestamp baseline actually used by the expiry guard: the `_savedAt`
value when it is a number, otherwise 0 (the `null` destructuring default
coerces to 0 in the subtraction). -/
def savedAtOrZero (fields : Snapshot) : Int :=
  match lookupJ fields "_savedAt" with
  | some (JVal.jnum s) => s
  | _ => 0

/-- Unfolding of the restore effect on a parseable stored object. -/
theorem restoreEffect_obj (cfg : Config) (now : Int) (st : HookState)
    (fields : Snapshot) (h1 : st.initialized = false)
    (h2 : st.restoring = false) (h3 : st.storage = some (Blob.obj fields)) :
    restoreEffect cfg now st =
      if expired cfg now fields then
        ⟨{ st with storage := none, restoring := false, initialized := true },
          [Event.getItem (getStorageKey cfg.name)]
            ++ (if cfg.hasOnTimeout then [Event.timeoutFired] else [])
            ++ [Event.removeItem (getStorageKey cfg.name)], false⟩
      else
        ⟨{ st with lastValues := stripSavedAt fields, restoring := false,
                   initialized := true },
          [Event.getItem (getStorageKey cfg.name)]
            ++ restoreSetEvents cfg (stripSavedAt fields)
            ++ (if cfg.hasOnDataRestored
                then [Event.dataRestored (stripSavedAt fields)] else []),
          false⟩ := by
  rw [restoreEffect_eq cfg now st h1 h2, h3]

/-- Field-set restore calls survive the `isSetValue` filter unchanged. -/
theorem filter_isSetValue_restoreSetEvents (cfg : Config)
    (values : Snapshot) :
    (restoreSetEvents cfg values).filter isSetValue
      = restoreSetEvents cfg values := by
  unfold restoreSetEvents
  generalize (values.filter fun kv => !(cfg.exclude.contains kv.1)) = l
  induction l with
  | nil => rfl
  | cons kv l ih => simp [isSetValue, ih]

/-- Field-set restore calls contain no `onDataRestored` invocation. -/
theorem filter_isDataRestored_restoreSetEvents (cfg : Config)
    (values : Snapshot) :
    (restoreSetEvents cfg values).filter isDataRestored = [] := by
  unfold restoreSetEvents
  generalize (values.filter fun kv => !(cfg.exclude.contains kv.1)) = l
  induction l with
  | nil => rfl
  | cons kv l ih => simp [isDataRestored, ih]

/-- An optional `onDataRestored` invocation contains no field-set call. -/
theorem filter_isSetValue_optRestored (b : Bool) (v : Snapshot) :
    ((if b then [Event.dataRestored v] else []).filter isSetValue) = [] := by
  cases b <;> rfl

/-- A save attempt whose candidate snapshot equals the in-memory
`lastValuesRef` never writes. -/
theorem attemptSave_noop_of_eq (cfg : Config) (now : Int) (w : Snapshot)
    (raises : Bool) (st : HookState)
    (hlv : filteredValues cfg.exclude w = st.lastValues) :
    writeCount (attemptSave cfg now w raises st).events = 0 := by
  unfold attemptSave
  split
  · rfl
  · unfold saveToStorage
    split
    · rfl
    · rw [hlv]
      simp [valuesHaveChanged_self, writeCount]

/-- C1 counterexample: on a malformed stored record the claim fails at
this input — the restore of a fresh binding over a non-parseable record
lets the parse exception surface (`threw = true`) and does not complete:
`initialized` stays false and the `restoring` flag stays set. -/
theorem C1_counterexample :
    (restoreEffect { name := "f" } 0
        (freshState (some Blob.malformed))).threw = true ∧
    (restoreEffect { name := "f" } 0
        (freshState (some Blob.malformed))).state.initialized = false ∧
    (restoreEffect { name := "f" } 0
        (freshState (some Blob.malformed))).state.restoring = true :=
  ⟨rfl, rfl, rfl⟩

/-- C1 (amended): for every stored record string that is not parseable as
the expected JSON encoding, initializing the binding performs no
field-set calls and fires no callback, but the parse exception
propagates to the caller and the restore does not complete: the binding
is left not initialized with the restoring flag still set, and the rest
of the state is unchanged. -/
theorem C1_amended_malformed (cfg : Config) (now : Int) (st : HookState)
    (h1 : st.initialized = false) (h2 : st.restoring = false)
    (h3 : st.storage = some Blob.malformed) :
    (restoreEffect cfg now st).threw = true ∧
    ((restoreEffect cfg now st).events.filter isSetValue) = [] ∧
    ((restoreEffect cfg now st).events.filter isDataRestored) = [] ∧
    (restoreEffect cfg now st).state = { st with restoring := true } := by
  rw [restoreEffect_eq cfg now st h1 h2, h3]
  exact ⟨rfl, rfl, rfl, rfl⟩

/-- C1 amended, witnessed at a concrete malformed record. -/
theorem C1_amended_malformed_witness :
    (restoreEffect { name := "w1" } 5
        (freshState (some Blob.malformed))).threw = true ∧
    ((restoreEffect { name := "w1" } 5
        (freshState (some Blob.malformed))).events.filter isSetValue) = [] ∧
    ((restoreEffect { name := "w1" } 5
        (freshState (some Blob.malformed))).events.filter isDataRestored)
      = [] ∧
    (restoreEffect { name := "w1" } 5
        (freshState (some Blob.malformed))).state
      = { freshState (some Blob.malformed) with restoring := true } :=
  C1_amended_malformed { name := "w1" } 5 (freshState (some Blob.malformed))
    rfl rfl rfl

/-- C9: when the adapter's get returns the empty string for the storage
key, restore treats it exactly like an absent record — nothing is parsed
(no exception), no field-set call and no callback is emitted,
`lastValuesRef` is untouched, the binding is still marked initialized,
and the emitted trace coincides with the absent-record trace. -/
theorem C9_empty_string_like_absent (cfg : Config) (now : Int)
    (st : HookState) (h1 : st.initialized = false) (h2 : st.restoring = false)
    (h3 : st.storage = some Blob.emptyStr) :
    (restoreEffect cfg now st).threw = false ∧
    ((restoreEffect cfg now st).events.filter isSetValue) = [] ∧
    ((restoreEffect cfg now st).events.filter isDataRestored) = [] ∧
    (restoreEffect cfg now st).state.initialized = true ∧
    (restoreEffect cfg now st).state.restoring = false ∧
    (restoreEffect cfg now st).state.lastValues = st.lastValues ∧
    (restoreEffect cfg now st).events
      = (restoreEffect cfg now { st with storage := none }).events ∧
    (restoreEffect cfg now st).threw
      = (restoreEffect cfg now { st with storage := none }).threw := by
  rw [restoreEffect_eq cfg now st h1 h2, h3,
    restoreEffect_eq cfg now { st with storage := none } h1 h2]
  exact ⟨rfl, rfl, rfl, rfl, rfl, rfl, rfl, rfl⟩

/-- C9, witnessed at a concrete empty-string record. -/
theorem C9_empty_string_like_absent_witness :
    (restoreEffect { name := "w9" } 3
        (freshState (some Blob.emptyStr))).threw = false ∧
    ((restoreEffect { name := "w9" } 3
        (freshState (some Blob.emptyStr))).events.filter isSetValue) = [] ∧
    ((restoreEffect { name := "w9" } 3
        (freshState (some Blob.emptyStr))).events.filter isDataRestored)
      = [] ∧
    (restoreEffect { name := "w9" } 3
        (freshState (some Blob.emptyStr))).state.initialized = true ∧
    (restoreEffect { name := "w9" } 3
        (freshState (some Blob.emptyStr))).state.restoring = false ∧
    (restoreEffect { name := "w9" } 3
        (freshState (some Blob.emptyStr))).state.lastValues
      = (freshState (some Blob.emptyStr)).lastValues ∧
    (restoreEffect { name := "w9" } 3
        (freshState (some Blob.emptyStr))).events
      = (restoreEffect { name := "w9" } 3
          { freshState (some Blob.emptyStr) with storage := none }).events ∧
    (restoreEffect { name := "w9" } 3
        (freshState (some Blob.emptyStr))).threw
      = (restoreEffect { name := "w9" } 3
          { freshState (some Blob.emptyStr) with storage := none }).threw :=
  C9_empty_string_like_absent { name := "w9" } 3
    (freshState (some Blob.emptyStr)) rfl rfl rfl

/-- C5: for every configuration (any debounce delay, any timeout, with
or without a raising adapter), if the candidate snapshot after exclusion
has zero fields, a save attempt performs no write to the Storage adapter
and leaves `lastValuesRef` unchanged. -/
theorem C5_empty_candidate_no_write (cfg : Config) (now : Int) (w : Snapshot)
    (raises : Bool) (st : HookState)
    (h : filteredValues cfg.exclude w = []) :
    writeCount (attemptSave cfg now w raises st).events = 0 ∧
    (attemptSave cfg now w raises st).state.lastValues = st.lastValues := by
  unfold attemptSave
  split
  · exact ⟨rfl, rfl⟩
  · unfold saveToStorage
    split
    · exact ⟨rfl, rfl⟩
    · rw [h]
      exact ⟨rfl, rfl⟩

/-- C5, witnessed at a fully excluded one-field snapshot. -/
theorem C5_empty_candidate_no_write_witness :
    filteredValues ["a"] [("a", JVal.jnum 1)] = [] ∧
    writeCount (attemptSave { name := "w5", exclude := ["a"] } 0
        [("a", JVal.jnum 1)] false
        { storage := none, lastValues := [], initialized := true,
          restoring := false, saving := false }).events = 0 ∧
    (attemptSave { name := "w5", exclude := ["a"] } 0
        [("a", JVal.jnum 1)] false
        { storage := none, lastValues := [], initialized := true,
          restoring := false, saving := false }).state.lastValues = [] :=
  ⟨rfl, (C5_empty_candidate_no_write { name := "w5", exclude := ["a"] } 0
      [("a", JVal.jnum 1)] false
      { storage := none, lastValues := [], initialized := true,
        restoring := false, saving := false } rfl).1,
    (C5_empty_candidate_no_write { name := "w5", exclude := ["a"] } 0
      [("a", JVal.jnum 1)] false
      { storage := none, lastValues := [], initialized := true,
        restoring := false, saving := false } rfl).2⟩

/-- C7: `clear()` issues exactly one remove to the Storage adapter, at
the storage key `react-hook-form-persist:<name>`, and leaves all four
session-state fields (`lastValuesRef`, `initializedRef`,
`isRestoringRef`, `isSavingRef`) unchanged; consequently a save attempt
immediately after the clear whose candidate snapshot equals the
in-memory `lastValuesRef` performs no write. -/
theorem C7_clear_frame (cfg : Config) (st : HookState) (now : Int)
    (w : Snapshot) (raises : Bool)
    (hw : filteredValues cfg.exclude w = st.lastValues) :
    (clearStorage cfg st).2
      = [Event.removeItem ("react-hook-form-persist:" ++ cfg.name)] ∧
    (clearStorage cfg st).1.lastValues = st.lastValues ∧
    (clearStorage cfg st).1.initialized = st.initialized ∧
    (clearStorage cfg st).1.restoring = st.restoring ∧
    (clearStorage cfg st).1.saving = st.saving ∧
    writeCount (attemptSave cfg now w raises (clearStorage cfg st).1).events
      = 0 := by
  refine ⟨rfl, rfl, rfl, rfl, rfl, ?_⟩
  unfold clearStorage attemptSave
  split
  · rfl
  · unfold saveToStorage
    split
    · rfl
    · rw [hw]
      simp [valuesHaveChanged_self, writeCount]

/-- C7, witnessed at a concrete state with a previously saved value. -/
theorem C7_clear_frame_witness :
    (clearStorage { name := "w7" }
        { storage := some (Blob.obj [("a", JVal.jnum 1)]),
          lastValues := [("a", JVal.jnum 1)], initialized := true,
          restoring := false, saving := false }).2
      = [Event.removeItem ("react-hook-form-persist:" ++ "w7")] ∧
    writeCount (attemptSave { name := "w7" } 0 [("a", JVal.jnum 1)] false
        (clearStorage { name := "w7" }
          { storage := some (Blob.obj [("a", JVal.jnum 1)]),
            lastValues := [("a", JVal.jnum 1)], initialized := true,
            restoring := false, saving := false }).1).events = 0 :=
  ⟨(C7_clear_frame { name := "w7" }
      { storage := some (Blob.obj [("a", JVal.jnum 1)]),
        lastValues := [("a", JVal.jnum 1)], initialized := true,
        restoring := false, saving := false } 0 [("a", JVal.jnum 1)] false
      rfl).1,
    (C7_clear_frame { name := "w7" }
      { storage := some (Blob.obj [("a", JVal.jnum 1)]),
        lastValues := [("a", JVal.jnum 1)], initialized := true,
        restoring := false, saving := false } 0 [("a", JVal.jnum 1)] false
      rfl).2.2.2.2.2⟩

/-- C2 counterexample: with `timeout` configured the claim fails at this
input — two consecutive save attempts of the byte-identical snapshot
`\x7ba: 1\x7d` produce two adapter writes, because the first write's
`_savedAt` stamp enters `lastValuesRef` and makes the unstamped second
candidate compare as changed. -/
theorem C2_counterexample :
    writeCount ((attemptSave { name := "f", timeout := some 1000 } 100
        [("a", JVal.jnum 1)] false
        { storage := none, lastValues := [], initialized := true,
          restoring := false, saving := false }).events
      ++ (attemptSave { name := "f", timeout := some 1000 } 100
        [("a", JVal.jnum 1)] false
        (attemptSave { name := "f", timeout := some 1000 } 100
          [("a", JVal.jnum 1)] false
          { storage := none, lastValues := [], initialized := true,
            restoring := false, saving := false }).state).events) = 2 := by
  decide

/-- C2 (amended): the idempotence holds exactly when no `timeout` is
configured: for every configuration without `timeout`, two consecutive
save attempts of the same snapshot (byte-identical field values, no
intervening change) produce one adapter write and then none.  With
`timeout` configured, `lastValuesRef` acquires the `_savedAt` stamp and
the second attempt writes again. -/
theorem C2_amended_idempotent_no_timeout (cfg : Config) (now1 now2 : Int)
    (w : Snapshot) (st : HookState) (hT : cfg.timeout = none)
    (hi : st.initialized = true) (hr : st.restoring = false)
    (hs : st.saving = false)
    (hne : filteredValues cfg.exclude w ≠ [])
    (hch : valuesHaveChanged (filteredValues cfg.exclude w) st.lastValues
      = true) :
    writeCount (attemptSave cfg now1 w false st).events = 1 ∧
    writeCount (attemptSave cfg now2 w false
        (attemptSave cfg now1 w false st).state).events = 0 := by
  have hlen : ((filteredValues cfg.exclude w).length != 0) = true := by
    simpa [bne_iff_ne, List.length_eq_zero] using hne
  have hcond : ((filteredValues cfg.exclude w).length != 0 &&
      valuesHaveChanged (filteredValues cfg.exclude w) st.lastValues)
      = true := by simp [hlen, hch]
  have hstamp : stampedRecord cfg now1 w = filteredValues cfg.exclude w := by
    unfold stampedRecord
    rw [hT]
    rfl
  refine ⟨?_, ?_⟩
  · rw [attemptSave_run cfg now1 w false st hi hr hs,
      saveToStorage_eq cfg now1 w false st hs, if_pos hcond]
    rfl
  · apply attemptSave_noop_of_eq
    rw [attemptSave_run cfg now1 w false st hi hr hs,
      saveToStorage_eq cfg now1 w false st hs, if_pos hcond]
    exact hstamp.symm

/-- C2 amended, witnessed at a concrete snapshot saved twice. -/
theorem C2_amended_idempotent_no_timeout_witness :
    writeCount (attemptSave { name := "w2" } 10 [("a", JVal.jnum 1)] false
        { storage := none, lastValues := [], initialized := true,
          restoring := false, saving := false }).events = 1 ∧
    writeCount (attemptSave { name := "w2" } 20 [("a", JVal.jnum 1)] false
        (attemptSave { name := "w2" } 10 [("a", JVal.jnum 1)] false
          { storage := none, lastValues := [], initialized := true,
            restoring := false, saving := false }).state).events = 0 :=
  C2_amended_idempotent_no_timeout { name := "w2" } 10 20
    [("a", JVal.jnum 1)]
    { storage := none, lastValues := [], initialized := true,
      restoring := false, saving := false }
    rfl rfl rfl rfl (by decide) rfl

/-- C3 counterexample: the claim fails at this input — when the
adapter's set raises during a save, `isSavingRef` is left true (not
cleared on the exceptional exit path), and a subsequent qualifying
change notification with a genuinely different snapshot is dropped
instead of attempting a save. -/
theorem C3_counterexample :
    (attemptSave { name := "f" } 0 [("a", JVal.jnum 1)] true
        { storage := none, lastValues := [], initialized := true,
          restoring := false, saving := false }).state.saving = true ∧
    (attemptSave { name := "f" } 0 [("a", JVal.jnum 1)] true
        { storage := none, lastValues := [], initialized := true,
          restoring := false, saving := false }).threw = true ∧
    (attemptSave { name := "f" } 1 [("b", JVal.jnum 2)] false
        (attemptSave { name := "f" } 0 [("a", JVal.jnum 1)] true
          { storage := none, lastValues := [], initialized := true,
            restoring := false, saving := false }).state).events = [] :=
  ⟨rfl, rfl, rfl⟩

/-- C3 (amended): on the two non-throwing exit paths of the save (write
performed, or skipped) the `saving` flag is cleared and no exception
escapes; but when the Storage adapter's set raises, the exception
propagates with `saving` left true — `lastValuesRef` is unchanged by the
failed write, yet every subsequent change notification is dropped by the
`isSavingRef` guard instead of re-attempting the save. -/
theorem C3_amended_saving_flag (cfg : Config) (now : Int) (w : Snapshot)
    (st : HookState) (hs : st.saving = false) :
    (saveToStorage cfg now w false st).state.saving = false ∧
    (saveToStorage cfg now w false st).threw = false ∧
    ((saveToStorage cfg now w true st).threw = true →
      (saveToStorage cfg now w true st).state.saving = true ∧
      (saveToStorage cfg now w true st).state.lastValues = st.lastValues ∧
      ∀ (cfg2 : Config) (now2 : Int) (w2 : Snapshot) (r2 : Bool),
        attemptSave cfg2 now2 w2 r2 (saveToStorage cfg now w true st).state
          = ⟨(saveToStorage cfg now w true st).state, [], false⟩) := by
  rw [saveToStorage_eq cfg now w false st hs,
    saveToStorage_eq cfg now w true st hs]
  by_cases hcond : ((filteredValues cfg.exclude w).length != 0 &&
      valuesHaveChanged (filteredValues cfg.exclude w) st.lastValues) = true
  · rw [if_pos hcond, if_pos hcond]
    refine ⟨rfl, rfl, fun _ => ⟨rfl, rfl, fun cfg2 now2 w2 r2 => ?_⟩⟩
    exact attemptSave_skip_saving cfg2 now2 w2 r2 _ rfl
  · rw [if_neg hcond, if_neg hcond]
    exact ⟨rfl, rfl, fun hth => Bool.noConfusion hth⟩

/-- C3 amended, witnessed at a concrete failing then skipped save. -/
theorem C3_amended_saving_flag_witness :
    (saveToStorage { name := "w3" } 0 [("a", JVal.jnum 1)] false
        { storage := none, lastValues := [], initialized := true,
          restoring := false, saving := false }).state.saving = false ∧
    (attemptSave { name := "w3" } 1 [("b", JVal.jnum 2)] false
        (saveToStorage { name := "w3" } 0 [("a", JVal.jnum 1)] true
          { storage := none, lastValues := [], initialized := true,
            restoring := false, saving := false }).state)
      = ⟨(saveToStorage { name := "w3" } 0 [("a", JVal.jnum 1)] true
          { storage := none, lastValues := [], initialized := true,
            restoring := false, saving := false }).state, [], false⟩ :=
  ⟨(C3_amended_saving_flag { name := "w3" } 0 [("a", JVal.jnum 1)]
      { storage := none, lastValues := [], initialized := true,
        restoring := false, saving := false } rfl).1,
    ((C3_amended_saving_flag { name := "w3" } 0 [("a", JVal.jnum 1)]
      { storage := none, lastValues := [], initialized := true,
        restoring := false, saving := false } rfl).2.2 rfl).2.2
      { name := "w3" } 1 [("b", JVal.jnum 2)] false⟩

/-- Configuration used by the C4 counterexample: a one-second timeout
with an `onTimeout` callback supplied. -/
def cfgC4 : Config :=
  { name := "f", timeout := some 1000, hasOnTimeout := true }

/-- One-field parseable record carrying no `_savedAt` timestamp. -/
def recNoStamp : Snapshot := [("a", JVal.jnum 1)]

/-- C4 counterexample: the claim fails at this input — with
`timeout = 1000` and a parseable record carrying no saved-at timestamp,
restore at `now = 1000000` nevertheless takes the expiry branch: it
fires `onTimeout`, deletes the record, and issues no field-set call,
instead of restoring the record normally. -/
theorem C4_counterexample :
    Event.removeItem "react-hook-form-persist:f"
        ∈ (restoreEffect cfgC4 1000000
            (freshState (some (Blob.obj recNoStamp)))).events ∧
    Event.timeoutFired
        ∈ (restoreEffect cfgC4 1000000
            (freshState (some (Blob.obj recNoStamp)))).events ∧
    ((restoreEffect cfgC4 1000000
        (freshState (some (Blob.obj recNoStamp)))).events.filter
        isSetValue) = [] := by
  decide

/-- C4 (amended): with a nonzero `timeout` configured, the expiry branch
is taken exactly when `now - savedAt > timeout` where an absent saved-at
timestamp is treated as 0 (the destructuring default `null` coerces to
0 in the subtraction); hence a parseable record without a saved-at
timestamp is expired — not restored — whenever `now > timeout`.  When
the branch is taken, no field-set call occurs, the record is deleted,
and the binding is still marked initialized. -/
theorem C4_amended_expiry (cfg : Config) (now t : Int) (st : HookState)
    (fields : Snapshot) (hT : cfg.timeout = some t) (ht : t ≠ 0)
    (h1 : st.initialized = false) (h2 : st.restoring = false)
    (h3 : st.storage = some (Blob.obj fields))
    (hsa : lookupJ fields "_savedAt" = none ∨
      ∃ s, lookupJ fields "_savedAt" = some (JVal.jnum s)) :
    (Event.removeItem (getStorageKey cfg.name)
        ∈ (restoreEffect cfg now st).events
      ↔ now - savedAtOrZero fields > t) ∧
    (now - savedAtOrZero fields > t →
      ((restoreEffect cfg now st).events.filter isSetValue) = [] ∧
      (restoreEffect cfg now st).state.initialized = true ∧
      (restoreEffect cfg now st).state.storage = none) := by
  have hexp : expired cfg now fields
      = decide (now - savedAtOrZero fields > t) := by
    unfold expired timeoutTruthy expiryDiff savedAtOrZero
    rw [hT]
    rcases hsa with h | ⟨s, h⟩
    · rw [h]
      simp [ht]
    · rw [h]
      simp [ht, jsToNumber]
  rw [restoreEffect_obj cfg now st fields h1 h2 h3]
  by_cases hgt : now - savedAtOrZero fields > t
  · rw [if_pos (by rw [hexp]; exact decide_eq_true hgt)]
    refine ⟨⟨fun _ => hgt, fun _ => by simp⟩, fun _ => ⟨?_, rfl, rfl⟩⟩
    rcases Bool.eq_false_or_eq_true cfg.hasOnTimeout with hb | hb <;>
      simp [hb, isSetValue]
  · rw [if_neg (by rw [hexp]; simpa using hgt)]
    refine ⟨⟨fun hmem => absurd ?_ hgt, fun h => absurd h hgt⟩,
      fun h => absurd h hgt⟩
    exfalso
    rcases Bool.eq_false_or_eq_true cfg.hasOnDataRestored with hb | hb <;>
      simp [hb, restoreSetEvents] at hmem

/-- C4 amended, witnessed at a concrete record with no timestamp. -/
theorem C4_amended_expiry_witness :
    Event.removeItem (getStorageKey "f")
        ∈ (restoreEffect cfgC4 5000
            (freshState (some (Blob.obj recNoStamp)))).events ∧
    ((restoreEffect cfgC4 5000
        (freshState (some (Blob.obj recNoStamp)))).events.filter
        isSetValue) = [] :=
  ⟨(C4_amended_expiry cfgC4 5000 1000
      (freshState (some (Blob.obj recNoStamp))) recNoStamp rfl (by decide)
      rfl rfl rfl (Or.inl rfl)).1.mpr (by decide),
    ((C4_amended_expiry cfgC4 5000 1000
      (freshState (some (Blob.obj recNoStamp))) recNoStamp rfl (by decide)
      rfl rfl rfl (Or.inl rfl)).2 (by decide)).1⟩

/-- C6: on a non-expired restore, field-set calls are issued for exactly
the fields of the parsed snapshot not in `exclude`, in order, each with
the three restore flags, while `onDataRestored` is invoked exactly once
with the full parsed snapshot, excluded fields included. -/
theorem C6_restore_exclusion (cfg : Config) (now : Int) (st : HookState)
    (fields : Snapshot) (h1 : st.initialized = false)
    (h2 : st.restoring = false) (h3 : st.storage = some (Blob.obj fields))
    (h4 : expired cfg now fields = false)
    (h5 : cfg.hasOnDataRestored = true) :
    ((restoreEffect cfg now st).events.filter isSetValue)
      = ((stripSavedAt fields).filter
          (fun kv => !(cfg.exclude.contains kv.1))).map
          (fun kv => Event.setValue kv.1 kv.2
            ⟨cfg.validate, cfg.dirty, cfg.touch⟩) ∧
    ((restoreEffect cfg now st).events.filter isDataRestored)
      = [Event.dataRestored (stripSavedAt fields)] := by
  rw [restoreEffect_obj cfg now st fields h1 h2 h3,
    if_neg (by rw [h4]; exact Bool.noConfusion), h5]
  constructor
  · rw [List.filter_append, List.filter_append,
      filter_isSetValue_restoreSetEvents]
    simp [isSetValue, restoreSetEvents]
  · rw [List.filter_append, List.filter_append,
      filter_isDataRestored_restoreSetEvents]
    rfl

/-- Configuration used by the C6 witness: field `b` excluded and an
`onDataRestored` callback supplied. -/
def cfgC6 : Config :=
  { name := "w6", exclude := ["b"], hasOnDataRestored := true }

/-- Two-field parseable record used by the C6 witness. -/
def recC6 : Snapshot := [("a", JVal.jnum 1), ("b", JVal.jnum 2)]

/-- C6, witnessed at a two-field record with one excluded field. -/
theorem C6_restore_exclusion_witness :
    ((restoreEffect cfgC6 0
        (freshState (some (Blob.obj recC6)))).events.filter isSetValue)
      = [Event.setValue "a" (JVal.jnum 1) ⟨false, false, false⟩] ∧
    ((restoreEffect cfgC6 0
        (freshState (some (Blob.obj recC6)))).events.filter isDataRestored)
      = [Event.dataRestored recC6] :=
  ⟨((C6_restore_exclusion cfgC6 0 (freshState (some (Blob.obj recC6)))
      recC6 rfl rfl rfl (by decide) rfl).1).trans (by decide),
    ((C6_restore_exclusion cfgC6 0 (freshState (some (Blob.obj recC6)))
      recC6 rfl rfl rfl (by decide) rfl).2).trans (by decide)⟩

/-- Default configuration (no exclusion, no timeout) for the C8
counterexample. -/
def cfgC8 : Config := { name := "f" }

/-- Initialized idle session state over empty storage for the C8
counterexample. -/
def stC8 : HookState :=
  { storage := none, lastValues := [], initialized := true,
    restoring := false, saving := false }

/-- C8 counterexample: the claim fails at this input — the non-empty
snapshot whose single field is named `_savedAt` is written verbatim by
the save (no timeout, so no stamping occurs), but the fresh binding's
restore destructures the reserved key away and issues zero field-set
calls, so the snapshot is not reproduced. -/
theorem C8_counterexample :
    writeCount (attemptSave cfgC8 0 [("_savedAt", JVal.jnum 5)] false
        stC8).events = 1 ∧
    ((restoreEffect cfgC8 7 (freshState
        (attemptSave cfgC8 0 [("_savedAt", JVal.jnum 5)] false
          stC8).state.storage)).events.filter isSetValue) = [] ∧
    ([("_savedAt", JVal.jnum 5)] : Snapshot) ≠ [] := by
  decide

/-- C8 (amended): for every JSON-serializable non-empty snapshot S that
does not use the reserved field name `_savedAt`, saving S with no
exclusion and no timeout and then restoring in a fresh binding over the
same storage cell issues field-set calls reproducing S exactly, value
for value, and installs S as the fresh binding's `lastValuesRef`. -/
theorem C8_amended_roundtrip (cfg : Config) (now now2 : Int) (S : Snapshot)
    (st : HookState) (hx : cfg.exclude = []) (hT : cfg.timeout = none)
    (hS : S ≠ []) (hres : "_savedAt" ∉ S.map Prod.fst)
    (hi : st.initialized = true) (hr : st.restoring = false)
    (hs : st.saving = false)
    (hch : valuesHaveChanged S st.lastValues = true) :
    ((restoreEffect cfg now2 (freshState
        (attemptSave cfg now S false st).state.storage)).events.filter
        isSetValue)
      = S.map (fun kv => Event.setValue kv.1 kv.2
          ⟨cfg.validate, cfg.dirty, cfg.touch⟩) ∧
    (restoreEffect cfg now2 (freshState
        (attemptSave cfg now S false st).state.storage)).state.lastValues
      = S := by
  have hfv : filteredValues cfg.exclude S = S := by
    rw [hx]
    rfl
  have hcond : ((filteredValues cfg.exclude S).length != 0 &&
      valuesHaveChanged (filteredValues cfg.exclude S) st.lastValues)
      = true := by
    rw [hfv, hch, Bool.and_true]
    simpa [bne_iff_ne, List.length_eq_zero] using hS
  have hstore : (attemptSave cfg now S false st).state.storage
      = some (Blob.obj S) := by
    rw [attemptSave_run cfg now S false st hi hr hs,
      saveToStorage_eq cfg now S false st hs, if_pos hcond]
    show some (Blob.obj (stampedRecord cfg now S)) = some (Blob.obj S)
    unfold stampedRecord
    rw [hT, hfv]
    rfl
  have hstrip : stripSavedAt S = S := by
    unfold stripSavedAt
    apply List.filter_eq_self.mpr
    intro a ha
    have hane : a.1 ≠ "_savedAt" := fun he =>
      hres (List.mem_map.mpr ⟨a, ha, he⟩)
    simpa [bne_iff_ne] using hane
  have hexp : expired cfg now2 S = false := by
    unfold expired
    rw [hT]
    rfl
  have hrse : restoreSetEvents cfg S
      = S.map (fun kv => Event.setValue kv.1 kv.2
          ⟨cfg.validate, cfg.dirty, cfg.touch⟩) := by
    unfold restoreSetEvents
    rw [hx]
    congr 1
    apply List.filter_eq_self.mpr
    intro a _
    rfl
  rw [hstore,
    restoreEffect_obj cfg now2 (freshState (some (Blob.obj S))) S rfl rfl
      rfl,
    if_neg (by rw [hexp]; exact Bool.noConfusion), hstrip]
  constructor
  · rw [List.filter_append, List.filter_append,
      filter_isSetValue_restoreSetEvents, hrse]
    simp [isSetValue, filter_isSetValue_optRestored]
  · rfl

/-- Default configuration for the C8 amended witness. -/
def cfgC8w : Config := { name := "w8" }

/-- Two-field snapshot round-tripped by the C8 amended witness. -/
def recC8w : Snapshot := [("a", JVal.jnum 1), ("b", JVal.jstr "x")]

/-- Initialized idle session state for the C8 amended witness. -/
def stC8w : HookState :=
  { storage := none, lastValues := [], initialized := true,
    restoring := false, saving := false }

/-- C8 amended, witnessed at a concrete two-field snapshot. -/
theorem C8_amended_roundtrip_witness :
    ((restoreEffect cfgC8w 1 (freshState
        (attemptSave cfgC8w 0 recC8w false stC8w).state.storage)).events.filter
        isSetValue)
      = recC8w.map (fun kv => Event.setValue kv.1 kv.2
          ⟨false, false, false⟩) ∧
    (restoreEffect cfgC8w 1 (freshState
        (attemptSave cfgC8w 0 recC8w false
          stC8w).state.storage)).state.lastValues
      = recC8w :=
  C8_amended_roundtrip cfgC8w 0 1 recC8w stC8w rfl rfl (by decide)
    (by decide) rfl rfl rfl (by decide)

/-- C10: with `timeout = 0` configured, a fired save stamps the written
record with the reserved `_savedAt` key (the save guard is
`timeout != null`, satisfied by 0), yet a restore over any parseable
record never takes the expiry branch (the restore guard is truthiness of
`timeout`, and 0 is falsy): no `onTimeout` fires, no record deletion
occurs, and the record is restored normally. -/
theorem C10_zero_timeout (cfg : Config) (now now2 : Int) (w : Snapshot)
    (st st2 : HookState) (fields : Snapshot)
    (hT : cfg.timeout = some 0) (hs : st.saving = false)
    (hne : filteredValues cfg.exclude w ≠ [])
    (hch : valuesHaveChanged (filteredValues cfg.exclude w) st.lastValues
      = true)
    (h1 : st2.initialized = false) (h2 : st2.restoring = false)
    (h3 : st2.storage = some (Blob.obj fields)) :
    (saveToStorage cfg now w false st).events
      = [Event.setItem (getStorageKey cfg.name)
          (objSet (filteredValues cfg.exclude w) "_savedAt"
            (JVal.jnum now))] ∧
    lookupJ (objSet (filteredValues cfg.exclude w) "_savedAt"
        (JVal.jnum now)) "_savedAt" = some (JVal.jnum now) ∧
    Event.removeItem (getStorageKey cfg.name)
        ∉ (restoreEffect cfg now2 st2).events ∧
    Event.timeoutFired ∉ (restoreEffect cfg now2 st2).events ∧
    (restoreEffect cfg now2 st2).state.lastValues = stripSavedAt fields ∧
    (restoreEffect cfg now2 st2).state.initialized = true := by
  have hcond : ((filteredValues cfg.exclude w).length != 0 &&
      valuesHaveChanged (filteredValues cfg.exclude w) st.lastValues)
      = true := by
    rw [hch, Bool.and_true]
    simpa [bne_iff_ne, List.length_eq_zero] using hne
  have hstamp : stampedRecord cfg now w
      = objSet (filteredValues cfg.exclude w) "_savedAt" (JVal.jnum now) := by
    unfold stampedRecord
    rw [hT]
    rfl
  have hexp : expired cfg now2 fields = false := by
    unfold expired
    rw [hT]
    rfl
  refine ⟨?_, lookupJ_objSet _ _ _, ?_, ?_, ?_, ?_⟩
  · rw [saveToStorage_eq cfg now w false st hs, if_pos hcond, hstamp]
    rfl
  · rw [restoreEffect_obj cfg now2 st2 fields h1 h2 h3,
      if_neg (by rw [hexp]; exact Bool.noConfusion)]
    rcases Bool.eq_false_or_eq_true cfg.hasOnDataRestored with hb | hb <;>
      simp [hb, restoreSetEvents]
  · rw [restoreEffect_obj cfg now2 st2 fields h1 h2 h3,
      if_neg (by rw [hexp]; exact Bool.noConfusion)]
    rcases Bool.eq_false_or_eq_true cfg.hasOnDataRestored with hb | hb <;>
      simp [hb, restoreSetEvents]
  · rw [restoreEffect_obj cfg now2 st2 fields h1 h2 h3,
      if_neg (by rw [hexp]; exact Bool.noConfusion)]
  · rw [restoreEffect_obj cfg now2 st2 fields h1 h2 h3,
      if_neg (by rw [hexp]; exact Bool.noConfusion)]

/-- Zero-timeout configuration for the C10 witness. -/
def cfgC10 : Config := { name := "w10", timeout := some 0 }

/-- Initialized idle session state for the C10 witness. -/
def stC10 : HookState :=
  { storage := none, lastValues := [], initialized := true,
    restoring := false, saving := false }

/-- Stamped record read back by the C10 witness's restore half. -/
def recC10 : Snapshot := [("a", JVal.jnum 1), ("_savedAt", JVal.jnum 3)]

/-- C10, witnessed at a concrete save and a concrete stamped record. -/
theorem C10_zero_timeout_witness :
    (saveToStorage cfgC10 9 [("a", JVal.jnum 1)] false stC10).events
      = [Event.setItem (getStorageKey "w10")
          (objSet (filteredValues [] [("a", JVal.jnum 1)]) "_savedAt"
            (JVal.jnum 9))] ∧
    lookupJ (objSet (filteredValues [] [("a", JVal.jnum 1)]) "_savedAt"
        (JVal.jnum 9)) "_savedAt" = some (JVal.jnum 9) ∧
    Event.removeItem (getStorageKey "w10")
        ∉ (restoreEffect cfgC10 1000000
            (freshState (some (Blob.obj recC10)))).events ∧
    Event.timeoutFired
        ∉ (restoreEffect cfgC10 1000000
            (freshState (some (Blob.obj recC10)))).events ∧
    (restoreEffect cfgC10 1000000
        (freshState (some (Blob.obj recC10)))).state.lastValues
      = stripSavedAt recC10 ∧
    (restoreEffect cfgC10 1000000
        (freshState (some (Blob.obj recC10)))).state.initialized = true :=
  C10_zero_timeout cfgC10 9 1000000 [("a", JVal.jnum 1)] stC10
    (freshState (some (Blob.obj recC10))) recC10 rfl rfl (by decide)
    (by decide) rfl rfl rfl

end FormPersist
